import Mathlib

/-!
Shallow embedding of the guidance engine of `ROTC_Weather.py`:
unit conversions, wind chill, heat-category banding, the free-text
precipitation interpreter, the Option A / PT uniform recommenders and the
final training decision. Temperatures and wind speeds are modelled as real
numbers; Python `None` becomes `Option`; Python string truthiness is made
explicit.
-/

namespace ROTCWeather

/-- Source: `f_to_c` (src/ROTC_Weather.py line 39). -/
noncomputable def f_to_c (Tf : ℝ) : ℝ := (Tf - 32.0) * 5.0 / 9.0

/-- Source: `c_to_f` (src/ROTC_Weather.py line 42). -/
noncomputable def c_to_f (Tc : ℝ) : ℝ := Tc * 9.0 / 5.0 + 32.0

/-- Source: `wind_chill_f` (src/ROTC_Weather.py lines 45-48); `None` is `none`,
`wind_mph ** 0.16` is real exponentiation. -/
noncomputable def wind_chill_f (Tf wind_mph : ℝ) : Option ℝ :=
  if Tf > 50 ∨ wind_mph ≤ 3 then none
  else some (35.74 + 0.6215 * Tf - 35.75 * wind_mph ^ (0.16 : ℝ)
    + 0.4275 * Tf * wind_mph ^ (0.16 : ℝ))

/-- Source: `heat_category_from_wbgt_f` (src/ROTC_Weather.py lines 63-74),
with the chained comparisons `78 <= wbgt_f <= 81.9` kept as conjunctions. -/
noncomputable def heat_category_from_wbgt_f (wbgt_f : ℝ) : String × ℤ :=
  if wbgt_f < 78 then ("Below White", 1)
  else if 78 ≤ wbgt_f ∧ wbgt_f ≤ 81.9 then ("White (Cat 1)", 1)
  else if 82 ≤ wbgt_f ∧ wbgt_f ≤ 84.9 then ("Green (Cat 2)", 2)
  else if 85 ≤ wbgt_f ∧ wbgt_f ≤ 87.9 then ("Yellow (Cat 3)", 3)
  else if 88 ≤ wbgt_f ∧ wbgt_f ≤ 89.9 then ("Red (Cat 4)", 4)
  else ("Black (Cat 5)", 5)

/-- `WBGT_CUTOFF_F` (src/ROTC_Weather.py line 30). -/
noncomputable def WBGT_CUTOFF_F : ℝ := 50

/-- `wbgt_applicable = temp_f > WBGT_CUTOFF_F` (src/ROTC_Weather.py line 360). -/
def wbgt_applicable (temp_f : ℝ) : Prop := temp_f > WBGT_CUTOFF_F

/-- ASCII lowercasing of one character, as Python `str.lower` acts on the
ASCII keywords the interpreter matches. -/
def asciiLower (c : Char) : Char :=
  if 65 ≤ c.toNat ∧ c.toNat ≤ 90 then Char.ofNat (c.toNat + 32) else c

/-- Python `s.lower()`. -/
def strLower (s : String) : String := ⟨s.data.map asciiLower⟩

/-- Python substring test `pat in s`, on the character lists of the strings. -/
def occursIn (pat : List Char) : List Char → Bool
  | [] => pat.isEmpty
  | a :: as => pat.isPrefixOf (a :: as) || occursIn pat as

/-- `pat in s` for strings. -/
def strContains (s pat : String) : Bool := occursIn pat.data s.data

/-- Python truthiness of an optional string: `None` and `""` are falsy. -/
def pyTruthy : Option String → Bool
  | none => false
  | some s => !s.isEmpty

/-- The string held by an optional string (`""` when absent). -/
def pyStr : Option String → String
  | none => ""
  | some s => s

/-- The keyword cascade of `interpret_condition` (src/ROTC_Weather.py
lines 79-99), applied to the already-lowercased text `c`. -/
def interpretKeywords (c : String) : String × String × Option String :=
  if strContains c "thunder" || strContains c "storm" then
    ("extreme", "Thunderstorm / lightning risk", some "NO OUTDOOR TRAINING")
  else if strContains c "freezing rain" || (strContains c "freezing" && strContains c "rain") then
    ("extreme", "Freezing rain / ice risk", some "NO OUTDOOR TRAINING")
  else if strContains c "sleet" || strContains c "ice" || strContains c "icy" then
    ("extreme", "Icy conditions", some "NO OUTDOOR TRAINING")
  else if strContains c "blizzard" then
    ("extreme", "Blizzard / near-zero visibility", some "NO OUTDOOR_TRAINING")
  else if strContains c "heavy snow" then
    ("high", "Heavy snow — visibility & slip risk", none)
  else if strContains c "snow" || strContains c "flurr" then
    ("moderate", "Snow present — traction/visibility caution", none)
  else if strContains c "heavy rain" || strContains c "torrential" then
    ("high", "Heavy rain — hypothermia & slip risk", none)
  else if strContains c "rain" || strContains c "shower" then
    ("moderate", "Rain — wet/hypothermia risk", none)
  else if strContains c "drizzle" || strContains c "light rain" then
    ("low", "Light rain / drizzle", none)
  else if strContains c "fog" || strContains c "mist" then
    ("moderate", "Fog / reduced visibility", none)
  else ("low", "No precipitation hazards", none)

/-- Source: `interpret_condition` (src/ROTC_Weather.py lines 77-99):
lowercase the text (`c = (cond_text or "").lower()`), then run the keyword
cascade. -/
def interpret_condition (cond_text : String) : String × String × Option String :=
  interpretKeywords (strLower cond_text)

/-- Python `x is not None and x <= bound` for an optional real. -/
def optLe : Option ℝ → ℝ → Prop
  | none, _ => False
  | some w, bound => w ≤ bound

/-- Python `h is not None and h >= n` for an optional integer. -/
def optGe : Option ℤ → ℤ → Prop
  | none, _ => False
  | some k, n => k ≥ n

open Classical in
/-- Source: `recommend_uniform_option_a` (src/ROTC_Weather.py lines 102-124).
The wind-chill parameter (named `wind_chill_f` in the source, shadowing the
function) is `wc`. -/
noncomputable def recommend_uniform_option_a (temp_f : ℝ) (wc : Option ℝ)
    (heat_cat_num : Option ℤ) (wbgt_applicable : Bool) (precip_level : String) :
    String × ℤ :=
  if precip_level = "extreme" then
    ("Suspend outdoor training due to dangerous precipitation (lightning/ice).", 3)
  else if wbgt_applicable = true ∧ heat_cat_num ≠ none then
    if optGe heat_cat_num 5 then
      ("Light clothing only; no armor; full hydration and move indoors", 3)
    else if heat_cat_num = some 4 then
      ("Light OCP/PT, reduce load, hydrate frequently", 2)
    else if heat_cat_num = some 3 then
      ("OCP, consider modified load and frequent water breaks", 1)
    else ("Standard OCP/PT uniform", 0)
  else if optLe wc (-20) then
    ("Arctic clothing / extreme cold gear. No exposed skin. No outdoor training.", 3)
  else if optLe wc 0 then
    ("Parka + layered clothing + gloves + balaclava. Move indoors for prolonged training.", 2)
  else if optLe wc 20 then
    ("OCP + parka + gloves + warm layers. Limit prolonged exposed activities.", 2)
  else if optLe wc 32 then
    ("OCP + fleece + gloves recommended.", 1)
  else if temp_f ≤ 50 ∧ temp_f > 33 then
    ("OCP + fleece optional; monitor wind and wetness.", 1)
  else ("Standard OCP/PT uniform", 0)

/-- Source: `recommend_pt_uniform` (src/ROTC_Weather.py lines 129-151).
A `none` input models a non-numeric value rejected by `float(temp_f)`. -/
noncomputable def recommend_pt_uniform (temp_f : Option ℝ) : String :=
  match temp_f with
  | none => "Standard PT uniform"
  | some t =>
    if t > 80 then "Short-sleeve shirt + shorts"
    else if 60 ≤ t ∧ t ≤ 80 then "Short-sleeve shirt + shorts (light jacket optional)"
    else if 40 ≤ t ∧ t ≤ 59 then "Long-sleeve shirt + pants"
    else if 20 ≤ t ∧ t ≤ 39 then "Sweats + jacket (+ hat optional)"
    else "Full cold-weather PT gear (sweats, gloves, hat)"

open Classical in
/-- Source: `final_training_decision` (src/ROTC_Weather.py lines 154-173).
The wind-chill parameter (named `wind_chill_f` in the source, shadowing the
function) is `wc`; the source's sequential `is not None and ...` tests become
`optLe`/`optGe`, and the truthiness test on the override is `pyTruthy`. -/
noncomputable def final_training_decision (temp_f : ℝ) (wc : Option ℝ)
    (heat_cat_num : Option ℤ) (wbgt_applicable : Bool)
    (precip_override : Option String) (precip_level : String) : String :=
  if pyTruthy precip_override then pyStr precip_override
  else if optLe wc (-20) then "NO OUTDOOR TRAINING — EXTREME COLD"
  else if optLe wc 0 then "MOVE TRAINING INDOORS / HIGH COLD RISK"
  else if optLe wc 20 then "LIMIT OUTDOOR TRAINING / USE INDOORS WHEN POSSIBLE (COLD CAUTION)"
  else if precip_level = "high" then "LIMIT OUTDOOR TRAINING / USE INDOORS WHEN POSSIBLE (PRECIPITATION)"
  else if wbgt_applicable = true ∧ heat_cat_num ≠ none then
    if optGe heat_cat_num 5 then "NO OUTDOOR TRAINING — EXTREME HEAT (BLACK FLAG)"
    else if heat_cat_num = some 4 then "LIMIT OUTDOOR TRAINING / USE INDOORS WHEN POSSIBLE (HEAT)"
    else if heat_cat_num = some 3 then "TRAIN OUTDOORS WITH CAUTION (HEAT)"
    else "TRAIN OUTDOORS (NO RESTRICTIONS)"
  else "TRAIN OUTDOORS (NO RESTRICTIONS)"

/-- Raising `b ^ 0.16` to the 25th power gives `b ^ 4`. -/
lemma rpow016_pow25 (b : ℝ) (hb : 0 ≤ b) : (b ^ (0.16 : ℝ)) ^ (25 : ℕ) = b ^ (4 : ℕ) := by
  have h1 : (0.16 : ℝ) * ((25 : ℕ) : ℝ) = ((4 : ℕ) : ℝ) := by push_cast; norm_num
  rw [← Real.rpow_natCast (b ^ (0.16 : ℝ)) 25, ← Real.rpow_mul hb, h1, Real.rpow_natCast]

/-- Rational enclosure of `b ^ 0.16` from 25th-power comparisons. -/
lemma rpow016_bounds (b lo hi : ℝ) (hb : 0 ≤ b) (hlo : 0 ≤ lo) (hhi : 0 ≤ hi)
    (h1 : lo ^ (25 : ℕ) ≤ b ^ (4 : ℕ)) (h2 : b ^ (4 : ℕ) ≤ hi ^ (25 : ℕ)) :
    lo ≤ b ^ (0.16 : ℝ) ∧ b ^ (0.16 : ℝ) ≤ hi := by
  have hnn : 0 ≤ b ^ (0.16 : ℝ) := Real.rpow_nonneg hb _
  have hkey := rpow016_pow25 b hb
  constructor
  · exact le_of_pow_le_pow_left₀ (n := 25) (by norm_num) hnn (by rw [hkey]; exact h1)
  · exact le_of_pow_le_pow_left₀ (n := 25) (by norm_num) hhi (by rw [hkey]; exact h2)

/-- On the defined side of the guard, `wind_chill_f` is the NWS formula. -/
lemma wind_chill_value (T V : ℝ) (hT : T ≤ 50) (hV : 3 < V) :
    wind_chill_f T V = some (35.74 + 0.6215 * T - 35.75 * V ^ (0.16 : ℝ)
      + 0.4275 * T * V ^ (0.16 : ℝ)) := by
  unfold wind_chill_f
  rw [if_neg]
  push_neg
  exact ⟨by linarith, by linarith⟩

/-- A truthy (non-empty) override is returned verbatim by the final decision. -/
lemma final_override_verbatim (s : String) (hs : s ≠ "") (t : ℝ) (wc : Option ℝ)
    (h : Option ℤ) (a : Bool) (lvl : String) :
    final_training_decision t wc h a (some s) lvl = s := by
  have hse : s.isEmpty = false := by
    cases he : s.isEmpty
    · rfl
    · exact absurd ((String.isEmpty_iff s).mp he) hs
  unfold final_training_decision
  rw [if_pos]
  · rfl
  · simp [pyTruthy, hse]

/-- With no override and a defined wind chill at most 20 °F, the final decision
is one of the three cold outcomes. -/
lemma final_cold_branch (t w : ℝ) (h : Option ℤ) (a : Bool) (lvl : String) (hw : w ≤ 20) :
    final_training_decision t (some w) h a none lvl ∈
      (["NO OUTDOOR TRAINING — EXTREME COLD",
        "MOVE TRAINING INDOORS / HIGH COLD RISK",
        "LIMIT OUTDOOR TRAINING / USE INDOORS WHEN POSSIBLE (COLD CAUTION)"] : List String) := by
  unfold final_training_decision
  rw [if_neg (by simp [pyTruthy])]
  by_cases h1 : optLe (some w) (-20)
  · rw [if_pos h1]; simp
  · rw [if_neg h1]
    by_cases h2 : optLe (some w) 0
    · rw [if_pos h2]; simp
    · rw [if_neg h2, if_pos (show optLe (some w) 20 from hw)]; simp

/-- Wind chill at most −20 °F with no override forces the extreme-cold outcome. -/
lemma final_extreme_cold (t w : ℝ) (h : Option ℤ) (a : Bool) (lvl : String) (hw : w ≤ -20) :
    final_training_decision t (some w) h a none lvl = "NO OUTDOOR TRAINING — EXTREME COLD" := by
  unfold final_training_decision
  rw [if_neg (by simp [pyTruthy]), if_pos (show optLe (some w) (-20) from hw)]

/-- Wind chill in (−20, 0] with no override forces the move-indoors outcome. -/
lemma final_move_indoors (t w : ℝ) (h : Option ℤ) (a : Bool) (lvl : String)
    (h1 : -20 < w) (h2 : w ≤ 0) :
    final_training_decision t (some w) h a none lvl = "MOVE TRAINING INDOORS / HIGH COLD RISK" := by
  unfold final_training_decision
  rw [if_neg (by simp [pyTruthy]),
    if_neg (show ¬ optLe (some w) (-20) by simp only [optLe]; linarith),
    if_pos (show optLe (some w) 0 from h2)]

/-- C1: the claim that `heat_category_from_wbgt_f` realises the §4.2 table as
half-open intervals (with monotone severity) fails: the code's closed decimal
bands leave the gap (81.9, 82) mapped to Black (Cat 5) severity 5, so
WBGT 81.95 °F gets severity 5 while the boundary values 81.9 °F and 82.0 °F
get White (Cat 1) and Green (Cat 2) — severity drops from 5 back to 2. -/
theorem heatCategoryGapViolation :
    heat_category_from_wbgt_f 81.95 = ("Black (Cat 5)", 5) ∧
    heat_category_from_wbgt_f 81.9 = ("White (Cat 1)", 1) ∧
    heat_category_from_wbgt_f 82 = ("Green (Cat 2)", 2) := by
  refine ⟨?_, ?_, ?_⟩ <;> (unfold heat_category_from_wbgt_f; norm_num)

/-- C2: with no precipitation override, a defined wind chill at most 20 °F
forces one of the three cold decisions regardless of precipitation level and
heat category; the scenario 10 °F / 15 mph / "Snow" (moderate, no override)
yields "MOVE TRAINING INDOORS / HIGH COLD RISK"; and wind chill at most
−20 °F with low precipitation yields the extreme-cold decision. -/
theorem coldPriorityFinalDecision :
    (∀ (t w : ℝ) (h : Option ℤ) (a : Bool) (lvl : String), w ≤ 20 →
      final_training_decision t (some w) h a none lvl ∈
        (["NO OUTDOOR TRAINING — EXTREME COLD",
          "MOVE TRAINING INDOORS / HIGH COLD RISK",
          "LIMIT OUTDOOR TRAINING / USE INDOORS WHEN POSSIBLE (COLD CAUTION)"] : List String)) ∧
    (interpret_condition "Snow" =
        ("moderate", "Snow present — traction/visibility caution", none) ∧
      final_training_decision 10 (wind_chill_f 10 15) none false none "moderate" =
        "MOVE TRAINING INDOORS / HIGH COLD RISK") ∧
    (∀ (t w : ℝ) (h : Option ℤ) (a : Bool), w ≤ -20 →
      final_training_decision t (some w) h a none "low" =
        "NO OUTDOOR TRAINING — EXTREME COLD") := by
  refine ⟨fun t w h a lvl hw => final_cold_branch t w h a lvl hw, ⟨by decide, ?_⟩,
    fun t w h a hw => final_extreme_cold t w h a "low" hw⟩
  have hx := rpow016_bounds 15 1.5 1.6 (by norm_num) (by norm_num) (by norm_num)
    (by norm_num) (by norm_num)
  rw [wind_chill_value 10 15 (by norm_num) (by norm_num)]
  exact final_move_indoors _ _ none false "moderate"
    (by nlinarith [hx.1, hx.2]) (by nlinarith [hx.1, hx.2])

/-- Witness for C2: a defined wind chill of 15 °F with no override lands in a
cold decision even at precipitation level "high". -/
theorem coldPriorityFinalDecisionWitness :
    final_training_decision 40 (some 15) none false none "high" ∈
      (["NO OUTDOOR TRAINING — EXTREME COLD",
        "MOVE TRAINING INDOORS / HIGH COLD RISK",
        "LIMIT OUTDOOR TRAINING / USE INDOORS WHEN POSSIBLE (COLD CAUTION)"] : List String) :=
  coldPriorityFinalDecision.1 40 15 none false "high" (by norm_num)

set_option maxHeartbeats 2000000 in
/-- C3: whenever `interpret_condition` classifies a condition text as extreme
precipitation it also produces a non-empty hard override string, and
`final_training_decision` returns that string verbatim, before every other
rule. -/
theorem extremeOverrideVerbatim (cond : String)
    (hx : (interpret_condition cond).1 = "extreme") :
    ∃ s : String, (interpret_condition cond).2.2 = some s ∧ s ≠ "" ∧
      ∀ (t : ℝ) (wc : Option ℝ) (h : Option ℤ) (a : Bool) (lvl : String),
        final_training_decision t wc h a (some s) lvl = s := by
  unfold interpret_condition interpretKeywords at hx ⊢
  split_ifs at hx ⊢
  · exact ⟨"NO OUTDOOR TRAINING", rfl, by decide,
      fun t wc h a lvl => final_override_verbatim _ (by decide) t wc h a lvl⟩
  · exact ⟨"NO OUTDOOR TRAINING", rfl, by decide,
      fun t wc h a lvl => final_override_verbatim _ (by decide) t wc h a lvl⟩
  · exact ⟨"NO OUTDOOR TRAINING", rfl, by decide,
      fun t wc h a lvl => final_override_verbatim _ (by decide) t wc h a lvl⟩
  · exact ⟨"NO OUTDOOR_TRAINING", rfl, by decide,
      fun t wc h a lvl => final_override_verbatim _ (by decide) t wc h a lvl⟩
  all_goals exact absurd hx (by decide)

/-- Witness for C3: the thunderstorm override propagates verbatim. -/
theorem extremeOverrideVerbatimWitness :
    final_training_decision 70 none none true (some "NO OUTDOOR TRAINING") "low" =
      "NO OUTDOOR TRAINING" := by
  obtain ⟨s, hs, hne, hfin⟩ := extremeOverrideVerbatim "Thunderstorm" (by decide)
  have h2 : some "NO OUTDOOR TRAINING" = some s := by rw [← hs]; decide
  cases h2
  exact hfin 70 none none true "low"

/-- C4: a condition text containing "freezing rain" and no thunder/storm
keyword takes the freezing-rain branch — extreme with the hard override —
and never falls through to the generic rain branch. -/
theorem freezingRainBeforeRain (cond : String)
    (h1 : (strContains (strLower cond) "thunder"
      || strContains (strLower cond) "storm") = false)
    (h2 : strContains (strLower cond) "freezing rain" = true) :
    interpret_condition cond =
      ("extreme", "Freezing rain / ice risk", some "NO OUTDOOR TRAINING") := by
  unfold interpret_condition interpretKeywords
  rw [if_neg (by simp [h1]), if_pos (by simp [h2])]

/-- Witness for C4 on the text "Freezing Rain". -/
theorem freezingRainBeforeRainWitness :
    interpret_condition "Freezing Rain" =
      ("extreme", "Freezing rain / ice risk", some "NO OUTDOOR TRAINING") :=
  freezingRainBeforeRain "Freezing Rain" (by decide) (by decide)

/-- C5: `wind_chill_f` is absent exactly when T > 50 °F or V ≤ 3 mph, and on
every other input equals the formula
35.74 + 0.6215·T − 35.75·V^0.16 + 0.4275·T·V^0.16 with no clamping. -/
theorem windChillDefinedIff (T V : ℝ) :
    (wind_chill_f T V = none ↔ T > 50 ∨ V ≤ 3) ∧
    (T ≤ 50 → 3 < V → wind_chill_f T V =
      some (35.74 + 0.6215 * T - 35.75 * V ^ (0.16 : ℝ)
        + 0.4275 * T * V ^ (0.16 : ℝ))) := by
  constructor
  · unfold wind_chill_f
    by_cases hc : T > 50 ∨ V ≤ 3
    · simp [hc]
    · simp [hc]
  · exact fun hT hV => wind_chill_value T V hT hV

/-- Witness for C5 at T = 30 °F, V = 10 mph. -/
theorem windChillDefinedIffWitness :
    wind_chill_f 30 10 = some (35.74 + 0.6215 * 30 - 35.75 * (10 : ℝ) ^ (0.16 : ℝ)
      + 0.4275 * 30 * (10 : ℝ) ^ (0.16 : ℝ)) :=
  (windChillDefinedIff 30 10).2 (by norm_num) (by norm_num)

/-- C6: the claim that the PT-uniform bands cover the reals with no gaps
fails: 59.5 °F falls in the code's gap between the 40–59 and 60–80 bands and
receives the full-cold-weather label, while 59 °F gets the long-sleeve band
and a non-numeric input gets the generic label. -/
theorem ptUniformGapViolation :
    recommend_pt_uniform (some 59.5) = "Full cold-weather PT gear (sweats, gloves, hat)" ∧
    recommend_pt_uniform (some 59) = "Long-sleeve shirt + pants" ∧
    recommend_pt_uniform none = "Standard PT uniform" := by
  refine ⟨?_, ?_, rfl⟩ <;> (unfold recommend_pt_uniform; norm_num)

/-- C7: WBGT applicability (temp > 50 °F) and wind-chill definedness never
both hold, and when the heat-category rule of `recommend_uniform_option_a`
can fire the result does not depend on the wind-chill argument. -/
theorem wbgtWindChillExclusive :
    (∀ T V : ℝ, wbgt_applicable T → wind_chill_f T V = none) ∧
    (∀ (T : ℝ) (wc wc' : Option ℝ) (n : ℤ) (lvl : String),
      recommend_uniform_option_a T wc (some n) true lvl =
        recommend_uniform_option_a T wc' (some n) true lvl) := by
  constructor
  · intro T V hT
    have hT' : T > 50 := by
      have h := hT
      unfold wbgt_applicable WBGT_CUTOFF_F at h
      exact h
    unfold wind_chill_f
    rw [if_pos (Or.inl hT')]
  · intro T wc wc' n lvl
    unfold recommend_uniform_option_a
    by_cases hl : lvl = "extreme"
    · simp [hl]
    · have hg : true = true ∧ (some n : Option ℤ) ≠ none := ⟨rfl, by simp⟩
      rw [if_neg hl, if_neg hl, if_pos hg, if_pos hg]

/-- Witness for C7: at 60 °F the wind chill is absent. -/
theorem wbgtWindChillExclusiveWitness : wind_chill_f 60 10 = none :=
  wbgtWindChillExclusive.1 60 10 (by norm_num [wbgt_applicable, WBGT_CUTOFF_F])

/-- C8 fails as stated: `wind_chill_f 30 10` is defined but lies more than
0.1 away from 16 °F (it is about 21.25 °F). -/
theorem windChill3010Not16 :
    (wind_chill_f 30 10).isSome = true ∧
    |(wind_chill_f 30 10).getD 0 - 16| > 0.1 := by
  have hx := rpow016_bounds 10 1.4454 1.4455 (by norm_num) (by norm_num) (by norm_num)
    (by norm_num) (by norm_num)
  rw [wind_chill_value 30 10 (by norm_num) (by norm_num)]
  refine ⟨rfl, ?_⟩
  simp only [Option.getD_some]
  have h1 : (10 : ℝ) ^ (0.16 : ℝ) ≤ 1.4455 := hx.2
  rw [abs_of_pos (by linarith)]
  linarith

/-- C8 amended: `wind_chill_f 55 10` and `wind_chill_f 30 2` are absent, and
`wind_chill_f 30 10` is a defined value equal to 21.2 °F to within ±0.1. -/
theorem windChillExamples :
    wind_chill_f 55 10 = none ∧ wind_chill_f 30 2 = none ∧
    ∃ w : ℝ, wind_chill_f 30 10 = some w ∧ |w - 21.2| ≤ 0.1 := by
  refine ⟨?_, ?_, ?_⟩
  · unfold wind_chill_f
    rw [if_pos (Or.inl (by norm_num))]
  · unfold wind_chill_f
    rw [if_pos (Or.inr (by norm_num))]
  · have hx := rpow016_bounds 10 1.4454 1.4455 (by norm_num) (by norm_num) (by norm_num)
      (by norm_num) (by norm_num)
    refine ⟨_, wind_chill_value 30 10 (by norm_num) (by norm_num), ?_⟩
    rw [abs_le]
    constructor <;> linarith [hx.1, hx.2]

/-- C9: the Fahrenheit↔Celsius conversions are mutually inverse linear maps:
`f_to_c (c_to_f x) = x` exactly over the reals. -/
theorem fToCRoundtrip : ∀ x : ℝ, f_to_c (c_to_f x) = x := by
  intro x
  unfold f_to_c c_to_f
  ring

/-- C10: a condition text containing "blizzard" and matched by no earlier
keyword rule yields the underscore override "NO OUTDOOR_TRAINING", a string
distinct from the "NO OUTDOOR TRAINING" of the earlier extreme branches, and
`final_training_decision` passes it through verbatim. -/
theorem blizzardUnderscoreOverride (cond : String)
    (h1 : (strContains (strLower cond) "thunder"
      || strContains (strLower cond) "storm") = false)
    (h2 : (strContains (strLower cond) "freezing rain"
      || (strContains (strLower cond) "freezing"
        && strContains (strLower cond) "rain")) = false)
    (h3 : (strContains (strLower cond) "sleet" || strContains (strLower cond) "ice"
      || strContains (strLower cond) "icy") = false)
    (h4 : strContains (strLower cond) "blizzard" = true) :
    interpret_condition cond =
      ("extreme", "Blizzard / near-zero visibility", some "NO OUTDOOR_TRAINING") ∧
    "NO OUTDOOR_TRAINING" ≠ "NO OUTDOOR TRAINING" ∧
    ∀ (t : ℝ) (wc : Option ℝ) (h : Option ℤ) (a : Bool) (lvl : String),
      final_training_decision t wc h a (some "NO OUTDOOR_TRAINING") lvl =
        "NO OUTDOOR_TRAINING" := by
  refine ⟨?_, by decide,
    fun t wc h a lvl => final_override_verbatim _ (by decide) t wc h a lvl⟩
  unfold interpret_condition interpretKeywords
  rw [if_neg (by simp [h1]), if_neg (by simp [h2]), if_neg (by simp [h3]),
    if_pos (by simp [h4])]

/-- Witness for C10 on the text "Blizzard", overriding even an extreme-cold
wind chill. -/
theorem blizzardUnderscoreOverrideWitness :
    interpret_condition "Blizzard" =
      ("extreme", "Blizzard / near-zero visibility", some "NO OUTDOOR_TRAINING") ∧
    final_training_decision 10 (some (-30)) none false (some "NO OUTDOOR_TRAINING") "low" =
      "NO OUTDOOR_TRAINING" := by
  have h := blizzardUnderscoreOverride "Blizzard" (by decide) (by decide) (by decide) (by decide)
  exact ⟨h.1, h.2.2 10 (some (-30)) none false "low"⟩

end ROTCWeather
